import Mathlib

/-
Verification of the validation engine of the ai-resource-configurator
repository.

The repository contains three validator implementations:
  * src/utils/validation.ts: a pure validateClients (duplicate-ID check,
    PriorityLevel range check, required-field check, AttributesJSON check);
  * src/app/page.tsx: inline validateClients / validateWorkers /
    validateTasks that accumulate into React state through
    setValidationErrors(prev => [...prev.filter(e =>
    e.type.indexOf(tag) === -1), ...errors]);
  * src/components/ui/button.tsx (second embedded page component): the
    full engine with referential checks (UnknownReference, SkillCoverage)
    and a pipeline that re-runs the three validators on every data change.

Rows of the datasets reach the validators as loosely typed JavaScript
values (a CSV cell arrives as a string, an XLSX cell may arrive as a
number, a missing cell is undefined).  The embedding models a scalar cell
as JSValue (absent / string / integer) and reproduces the JavaScript
coercions the validators rely on: truthiness, Number() conversion on the
integer fragment, and the relational comparison x < n whose result is
false whenever Number(x) is NaN.
-/

/-- A loosely typed scalar cell as the validators receive it:
a missing field (undefined), a string, or a number (integer fragment). -/
inductive JSValue where
  | absent
  | vstr (s : String)
  | vnum (n : Int)
deriving DecidableEq, Repr

/-- Digit accumulation for the decimal integer fragment of Number(). -/
def digitsToNat : List Char → Nat → Nat
  | [], acc => acc
  | c :: cs, acc => digitsToNat cs (acc * 10 + (c.toNat - 48))

/-- Whitespace recognised by String.prototype.trim and by Number()
(space, tab, line feed, carriage return, vertical tab, form feed). -/
def isSpaceChar (c : Char) : Bool :=
  c == ' ' || c == Char.ofNat 9 || c == Char.ofNat 10 || c == Char.ofNat 13 ||
  c == Char.ofNat 11 || c == Char.ofNat 12

/-- Drop leading whitespace characters. -/
def dropLeading : List Char → List Char
  | [] => []
  | c :: cs => if isSpaceChar c then dropLeading cs else c :: cs

/-- Trim whitespace from both ends of a character list. -/
def trimChars (cs : List Char) : List Char :=
  (dropLeading (dropLeading cs).reverse).reverse

/-- JavaScript Number() on a string, on the decimal integer fragment:
the trimmed empty string converts to 0, an optional sign followed by
digits converts to the signed value, anything else is NaN (none). -/
def strToNumber (s : String) : Option Int :=
  match trimChars s.data with
  | [] => some 0
  | c :: rest =>
    if c == '-' then
      if rest.isEmpty then none
      else if rest.all (fun d => d.isDigit) then some (-(digitsToNat rest 0 : Int)) else none
    else if c == '+' then
      if rest.isEmpty then none
      else if rest.all (fun d => d.isDigit) then some (digitsToNat rest 0) else none
    else if (c :: rest).all (fun d => d.isDigit) then some (digitsToNat (c :: rest) 0)
    else none

/-- JavaScript Number() conversion of a scalar cell; none models NaN
(Number(undefined) is NaN). -/
def toNum : JSValue → Option Int
  | .absent => none
  | .vstr s => strToNumber s
  | .vnum n => some n

/-- JavaScript truthiness of a scalar cell: undefined and the empty
string and 0 are falsy, everything else here is truthy. -/
def truthy : JSValue → Bool
  | .absent => false
  | .vstr s => s != ""
  | .vnum n => n != 0

/-- JavaScript v < n for a number literal n: both sides convert to
numbers and any NaN makes the comparison false. -/
def jsLt (v : JSValue) (n : Int) : Bool :=
  match toNum v with
  | none => false
  | some m => decide (m < n)

/-- JavaScript v > n for a number literal n: both sides convert to
numbers and any NaN makes the comparison false. -/
def jsGt (v : JSValue) (n : Int) : Bool :=
  match toNum v with
  | none => false
  | some m => decide (n < m)

/-- Decimal digits of a natural number, most significant first; the
fuel argument is a recursion bound (n itself suffices). -/
def natDigits : Nat → Nat → List Char
  | 0, _ => []
  | fuel + 1, n =>
    if n < 10 then [Char.ofNat (48 + n)]
    else natDigits fuel (n / 10) ++ [Char.ofNat (48 + n % 10)]

/-- Decimal rendering of a natural number. -/
def natToStr (n : Nat) : String := String.mk (natDigits (n + 1) n)

/-- Decimal rendering of an integer, as JavaScript string conversion
prints an integral number. -/
def intToStr : Int → String
  | .ofNat n => natToStr n
  | .negSucc n => "-" ++ natToStr (n + 1)

/-- JavaScript string conversion of a scalar cell, as used inside
template literals of the error messages. -/
def jsToString : JSValue → String
  | .absent => "undefined"
  | .vstr s => s
  | .vnum n => intToStr n

/-- Split a character list at commas (String.prototype.split with
separator comma: the empty input yields one empty piece). -/
def splitCommaAux : List Char → List Char → List (List Char)
  | [], acc => [acc.reverse]
  | c :: cs, acc =>
    if c == ',' then acc.reverse :: splitCommaAux cs [] else splitCommaAux cs (c :: acc)

/-- Comma split followed by a trim of every piece, as the validators
parse comma-separated list fields. -/
def splitTrim (s : String) : List String :=
  (splitCommaAux s.data []).map (fun cs => String.mk (trimChars cs))

/-- The double-quote character. -/
def quoteC : Char := Char.ofNat 34

/-- The backslash character. -/
def bslashC : Char := Char.ofNat 92

/-- The opening curly bracket. -/
def lbraceC : Char := Char.ofNat 123

/-- The closing curly bracket. -/
def rbraceC : Char := Char.ofNat 125

/-- JSON whitespace (space, tab, line feed, carriage return). -/
def jsonWsChar (c : Char) : Bool :=
  c == ' ' || c == Char.ofNat 9 || c == Char.ofNat 10 || c == Char.ofNat 13

/-- Drop leading JSON whitespace. -/
def skipWs : List Char → List Char
  | [] => []
  | c :: cs => if jsonWsChar c then skipWs cs else c :: cs

/-- Hexadecimal digit test for the \\u escape of JSON strings. -/
def isHexCh (c : Char) : Bool :=
  c.isDigit || (97 ≤ c.toNat && c.toNat ≤ 102) || (65 ≤ c.toNat && c.toNat ≤ 70)

/-- Scan the remainder of a JSON string after the opening quote,
returning the input following the closing quote; handles the escape
sequences accepted by JSON.parse and rejects raw control characters.
The fuel argument is a recursion bound. -/
def jsonStringRest : Nat → List Char → Option (List Char)
  | 0, _ => none
  | _, [] => none
  | fuel + 1, c :: cs =>
    if c == quoteC then some cs
    else if c == bslashC then
      match cs with
      | [] => none
      | e :: cs2 =>
        if e == 'u' then
          match cs2 with
          | a :: b :: c2 :: d :: cs3 =>
            if isHexCh a && isHexCh b && isHexCh c2 && isHexCh d then
              jsonStringRest fuel cs3
            else none
          | _ => none
        else if e == quoteC || e == bslashC || e == '/' || e == 'b' || e == 'f' ||
                e == 'n' || e == 'r' || e == 't' then
          jsonStringRest fuel cs2
        else none
    else if 32 ≤ c.toNat then jsonStringRest fuel cs
    else none

/-- Consume a maximal run of decimal digits. -/
def dropDigits : List Char → List Char
  | [] => []
  | c :: cs => if c.isDigit then dropDigits cs else c :: cs

/-- Consume the sign and integer part of a JSON number
(0, or a nonzero digit followed by digits). -/
def jsonIntPart : List Char → Option (List Char)
  | [] => none
  | c :: r =>
    match (if c == '-' then r else c :: r) with
    | [] => none
    | d :: r2 =>
      if d == '0' then some r2
      else if d.isDigit then some (dropDigits r2)
      else none

/-- Consume an optional JSON fraction part. -/
def jsonFrac : List Char → Option (List Char)
  | '.' :: r =>
    match r with
    | c :: _ => if c.isDigit then some (dropDigits r) else none
    | [] => none
  | cs => some cs

/-- Consume an optional JSON exponent part. -/
def jsonExp : List Char → Option (List Char)
  | [] => some []
  | c :: r =>
    if c == 'e' || c == 'E' then
      match (match r with
             | s :: r3 => if s == '+' || s == '-' then r3 else s :: r3
             | [] => []) with
      | d :: r4 => if d.isDigit then some (dropDigits (d :: r4)) else none
      | [] => none
    else some (c :: r)

/-- Consume a complete JSON number. -/
def jsonNumberRest (cs : List Char) : Option (List Char) :=
  (jsonIntPart cs).bind jsonFrac |>.bind jsonExp

mutual

/-- Consume one JSON value (the input starts at the value, without
leading whitespace); returns the remaining input.  Mirrors the grammar
JSON.parse accepts.  The fuel argument is a recursion bound. -/
def jsonVal : Nat → List Char → Option (List Char)
  | 0, _ => none
  | _, [] => none
  | fuel + 1, c :: rest =>
    if c == quoteC then jsonStringRest (fuel + 1) rest
    else if c == lbraceC then
      match skipWs rest with
      | [] => none
      | c2 :: r2 => if c2 == rbraceC then some r2 else jsonMembers fuel (c2 :: r2)
    else if c == '[' then
      match skipWs rest with
      | [] => none
      | c2 :: r2 => if c2 == ']' then some r2 else jsonItems fuel (c2 :: r2)
    else if c == '-' || c.isDigit then jsonNumberRest (c :: rest)
    else if c == 't' then
      match rest with
      | 'r' :: 'u' :: 'e' :: r2 => some r2
      | _ => none
    else if c == 'f' then
      match rest with
      | 'a' :: 'l' :: 's' :: 'e' :: r2 => some r2
      | _ => none
    else if c == 'n' then
      match rest with
      | 'u' :: 'l' :: 'l' :: r2 => some r2
      | _ => none
    else none

/-- Consume the members of a JSON object after the opening bracket,
including the closing bracket. -/
def jsonMembers : Nat → List Char → Option (List Char)
  | 0, _ => none
  | _, [] => none
  | fuel + 1, c :: rest =>
    if c == quoteC then
      match jsonStringRest (fuel + 1) rest with
      | none => none
      | some cs1 =>
        match skipWs cs1 with
        | ':' :: cs2 =>
          match jsonVal fuel (skipWs cs2) with
          | none => none
          | some cs3 =>
            match skipWs cs3 with
            | ',' :: cs4 => jsonMembers fuel (skipWs cs4)
            | c2 :: cs4 => if c2 == rbraceC then some cs4 else none
            | [] => none
        | _ => none
    else none

/-- Consume the items of a JSON array after the opening bracket,
including the closing bracket. -/
def jsonItems : Nat → List Char → Option (List Char)
  | 0, _ => none
  | fuel + 1, cs =>
    match jsonVal fuel cs with
    | none => none
    | some cs1 =>
      match skipWs cs1 with
      | ',' :: cs2 => jsonItems fuel (skipWs cs2)
      | c :: cs2 => if c == ']' then some cs2 else none
      | [] => none

end

/-- Whether JSON.parse accepts the string: one JSON value surrounded by
optional whitespace.  The fuel bound 2 * length + 4 covers the deepest
possible chain of parser calls per consumed character. -/
def isValidJSON (s : String) : Bool :=
  match jsonVal (2 * s.length + 4) (skipWs s.data) with
  | some rest => (skipWs rest).isEmpty
  | none => false

/-- Consume the items of an array of JSON numbers after the opening
bracket, including the closing bracket. -/
def numItems : Nat → List Char → Option (List Char)
  | 0, _ => none
  | fuel + 1, cs =>
    match jsonNumberRest cs with
    | none => none
    | some cs1 =>
      match skipWs cs1 with
      | ',' :: cs2 => numItems fuel (skipWs cs2)
      | c :: cs2 => if c == ']' then some cs2 else none
      | [] => none

/-- Whether the string is a JSON array whose elements are all numbers:
exactly the condition under which the AvailableSlots parse in
button.tsx (JSON.parse followed by the Array.isArray and
typeof-number checks) raises no error on a string cell. -/
def isNumArray (s : String) : Bool :=
  match skipWs s.data with
  | [] => false
  | c :: r =>
    if c == '[' then
      match skipWs r with
      | [] => false
      | c2 :: r2 =>
        if c2 == ']' then (skipWs r2).isEmpty
        else
          match numItems (s.length + 2) (c2 :: r2) with
          | some rest => (skipWs rest).isEmpty
          | none => false
    else false

/-- Replacement of every single quote by a double quote, as button.tsx
normalises AvailableSlots before the JSON-array parse. -/
def replaceQuotes (s : String) : String :=
  String.mk (s.data.map (fun c => if c == Char.ofNat 39 then quoteC else c))

/-- Consume one or more decimal digits. -/
def digitsThen : List Char → Option (List Char)
  | [] => none
  | c :: cs => if c.isDigit then some (dropDigits cs) else none

/-- Tail of the bracketed-list grammar after the opening square
bracket: digits, then comma-digits groups, then the closing bracket at
the end of the input.  The fuel argument is a recursion bound. -/
def bracketTail : Nat → List Char → Bool
  | 0, _ => false
  | fuel + 1, cs =>
    match digitsThen cs with
    | none => false
    | some cs1 =>
      match cs1 with
      | c :: cs2 =>
        if c == ',' then bracketTail fuel cs2
        else if c == ']' then cs2.isEmpty
        else false
      | [] => false

/-- The PreferredPhases bracketed-list grammar of button.tsx, the
anchored regular expression matching an opening square bracket, digits,
comma-digits groups, and a closing square bracket. -/
def bracketListRe (s : String) : Bool :=
  match s.data with
  | [] => false
  | c :: cs => c == '[' && bracketTail (s.length + 1) cs

/-- The PreferredPhases dash-range grammar of button.tsx, the anchored
regular expression matching digits, a dash, and digits. -/
def dashRangeRe (s : String) : Bool :=
  match digitsThen s.data with
  | none => false
  | some cs1 =>
    match cs1 with
    | c :: cs2 =>
      c == '-' &&
        (match digitsThen cs2 with
         | some rest => rest.isEmpty
         | none => false)
    | [] => false

/-- Whether the second list is an initial segment of the first. -/
def startsWithCL : List Char → List Char → Bool
  | _, [] => true
  | [], _ :: _ => false
  | c :: cs, p :: ps => c == p && startsWithCL cs ps

/-- Whether the pattern occurs inside the list. -/
def occursCL : List Char → List Char → Bool
  | [], pat => pat.isEmpty
  | c :: cs, pat => startsWithCL (c :: cs) pat || occursCL cs pat

/-- Whether pat occurs as a substring of s
(s.indexOf(pat) not equal to -1). -/
def containsSub (s pat : String) : Bool :=
  occursCL s.data pat.data

/-- The error record of src/utils/validation.ts and src/app/page.tsx:
a kind tag, a human-readable message, a 1-based row number, and the
column the error is attached to. -/
structure ValidationError where
  type : String
  message : String
  row : Nat
  column : String
deriving DecidableEq, Repr

/-- The ClientData row shape of src/app/page.tsx; identifier and list
fields arrive as strings (the CSV path fills missing cells with the
empty string), PriorityLevel arrives as a loosely typed scalar. -/
structure ClientData where
  ClientID : String
  ClientName : String
  PriorityLevel : JSValue
  RequestedTaskIDs : String
  GroupTag : String
  AttributesJSON : String
deriving DecidableEq, Repr

/-- The WorkerData row shape of src/app/page.tsx. -/
structure WorkerData where
  WorkerID : String
  WorkerName : String
  Skills : String
  AvailableSlots : JSValue
  MaxLoadPerPhase : JSValue
  WorkerGroup : String
  QualificationLevel : JSValue
deriving DecidableEq, Repr

/-- The error record of the engine in src/components/ui/button.tsx:
a kind tag, a message, the owning dataset, a 0-based row index, and the
field the error is attached to. -/
structure VError where
  type : String
  message : String
  entity : String
  rowIndex : Nat
  field : String
deriving DecidableEq, Repr

/-- A client row as the button.tsx engine reads it (only the fields its
validateClients touches). -/
structure CRow where
  ClientID : String
  PriorityLevel : JSValue
  RequestedTaskIDs : String
  AttributesJSON : String
deriving DecidableEq, Repr

/-- A worker row as the button.tsx engine reads it. -/
structure WRow where
  WorkerID : String
  Skills : String
  AvailableSlots : JSValue
  MaxLoadPerPhase : JSValue
deriving DecidableEq, Repr

/-- A task row as the button.tsx engine reads it. -/
structure TRow where
  TaskID : String
  DurationPhases : JSValue
  RequiredSkills : String
  PreferredPhases : String
  MaxConcurrent : JSValue
deriving DecidableEq, Repr

/-- The data.forEach((row, index) => ...) loop shared by every
validator: per row the function f receives the set of identifiers of
the preceding rows (the ids set, to which each iteration adds the
current identifier after its duplicate check), the running index, and
the row, and its errors are appended in iteration order. -/
def foldRows {R E : Type} (f : List String → Nat → R → List E) (idOf : R → String) :
    List String → Nat → List R → List E
  | _, _, [] => []
  | seen, i, r :: rest => f seen i r ++ foldRows f idOf (seen ++ [idOf r]) (i + 1) rest

/-- The per-row checks of validateClients in src/utils/validation.ts,
in source order: duplicate-ID check, PriorityLevel range check,
required-field check, AttributesJSON JSON.parse check.  The row field
of each error is index + 1 as in the source. -/
def clientRowErrorsU (seen : List String) (i : Nat) (c : ClientData) : List ValidationError :=
  (if seen.contains c.ClientID then
    [⟨"duplicate_id", "Duplicate ClientID: " ++ c.ClientID, i + 1, "ClientID"⟩] else []) ++
  (if jsLt c.PriorityLevel 1 || jsGt c.PriorityLevel 5 then
    [⟨"out_of_range", "PriorityLevel must be 1-5, got: " ++ jsToString c.PriorityLevel,
      i + 1, "PriorityLevel"⟩] else []) ++
  (if c.ClientID == "" || c.ClientName == "" then
    [⟨"missing_required", "Missing required ClientID or ClientName",
      i + 1, "ClientID/ClientName"⟩] else []) ++
  (if c.AttributesJSON != "" && !isValidJSON c.AttributesJSON then
    [⟨"invalid_json", "Invalid JSON in AttributesJSON", i + 1, "AttributesJSON"⟩] else [])

/-- validateClients of src/utils/validation.ts. -/
def validateClientsU (data : List ClientData) : List ValidationError :=
  foldRows clientRowErrorsU (fun c => c.ClientID) [] 0 data

/-- The per-row checks of the inline validateClients of
src/app/page.tsx, in source order: duplicate-ID check, PriorityLevel
range check, required-field check (no JSON check there). -/
def clientRowErrorsPage (seen : List String) (i : Nat) (c : ClientData) : List ValidationError :=
  (if seen.contains c.ClientID then
    [⟨"duplicate_id", "Duplicate ClientID: " ++ c.ClientID, i + 1, "ClientID"⟩] else []) ++
  (if jsLt c.PriorityLevel 1 || jsGt c.PriorityLevel 5 then
    [⟨"out_of_range", "PriorityLevel must be 1-5, got: " ++ jsToString c.PriorityLevel,
      i + 1, "PriorityLevel"⟩] else []) ++
  (if c.ClientID == "" || c.ClientName == "" then
    [⟨"missing_required", "Missing required ClientID or ClientName",
      i + 1, "ClientID/ClientName"⟩] else [])

/-- The inline validateClients of src/app/page.tsx. -/
def validateClientsPage (data : List ClientData) : List ValidationError :=
  foldRows clientRowErrorsPage (fun c => c.ClientID) [] 0 data

/-- The per-row checks of the inline validateWorkers of
src/app/page.tsx, in source order: duplicate-ID check, required-field
check, and the MaxLoadPerPhase < 1 range check. -/
def workerRowErrorsPage (seen : List String) (i : Nat) (w : WorkerData) : List ValidationError :=
  (if seen.contains w.WorkerID then
    [⟨"duplicate_id", "Duplicate WorkerID: " ++ w.WorkerID, i + 1, "WorkerID"⟩] else []) ++
  (if w.WorkerID == "" || w.WorkerName == "" then
    [⟨"missing_required", "Missing required WorkerID or WorkerName",
      i + 1, "WorkerID/WorkerName"⟩] else []) ++
  (if jsLt w.MaxLoadPerPhase 1 then
    [⟨"out_of_range", "MaxLoadPerPhase must be >= 1", i + 1, "MaxLoadPerPhase"⟩] else [])

/-- The inline validateWorkers of src/app/page.tsx. -/
def validateWorkersPage (data : List WorkerData) : List ValidationError :=
  foldRows workerRowErrorsPage (fun w => w.WorkerID) [] 0 data

/-- The state update src/app/page.tsx performs after running its inline
validateClients: setValidationErrors(prev => [...prev.filter(e =>
e.type.indexOf(tag) === -1), ...errors]) with tag client. -/
def applyClientRun (prev : List ValidationError) (data : List ClientData) :
    List ValidationError :=
  prev.filter (fun e => !containsSub e.type "client") ++ validateClientsPage data

/-- The UnknownReference errors one client row contributes: one per
trimmed non-empty RequestedTaskIDs entry that is not among the task
identifiers (button.tsx validateClients, requested.forEach). -/
def refErrorsBtn (taskIDs : List String) (i : Nat) (entries : List String) : List VError :=
  entries.filterMap (fun tid =>
    if tid != "" && !taskIDs.contains tid then
      some ⟨"UnknownReference", "RequestedTaskID " ++ tid ++ " not found in tasks",
        "clients", i, "RequestedTaskIDs"⟩
    else none)

/-- The per-row checks of validateClients in button.tsx, in source
order: duplicate-ID check, the truthiness-guarded PriorityLevel range
check, the RequestedTaskIDs reference check against the task
identifiers, and the AttributesJSON JSON.parse check. -/
def clientRowErrorsBtn (taskIDs seen : List String) (i : Nat) (row : CRow) : List VError :=
  (if seen.contains row.ClientID then
    [⟨"DuplicateID", "Duplicate ClientID: " ++ row.ClientID, "clients", i, "ClientID"⟩]
   else []) ++
  (if truthy row.PriorityLevel && (jsLt row.PriorityLevel 1 || jsGt row.PriorityLevel 5) then
    [⟨"OutOfRange", "PriorityLevel must be 1-5", "clients", i, "PriorityLevel"⟩] else []) ++
  (if row.RequestedTaskIDs != "" then
    refErrorsBtn taskIDs i (splitTrim row.RequestedTaskIDs) else []) ++
  (if row.AttributesJSON != "" && !isValidJSON row.AttributesJSON then
    [⟨"BrokenJSON", "AttributesJSON is not valid JSON", "clients", i, "AttributesJSON"⟩]
   else [])

/-- validateClients of button.tsx: row checks over the client rows with
the task-identifier set built from the tasks argument. -/
def validateClientsBtn (clients : List CRow) (tasks : List TRow) : List VError :=
  foldRows (clientRowErrorsBtn (tasks.map (fun t => t.TaskID))) (fun c => c.ClientID) [] 0 clients

/-- The AvailableSlots parse check of validateWorkers in button.tsx:
a falsy cell is skipped; a string cell passes exactly when, after quote
normalisation, it is a JSON array of numbers; a truthy non-string cell
is not an array and fails. -/
def slotsErrorsBtn (i : Nat) (v : JSValue) : List VError :=
  if truthy v then
    (match v with
     | .vstr s =>
       if isNumArray (replaceQuotes s) then []
       else [⟨"MalformedList", "AvailableSlots must be a numeric array",
              "workers", i, "AvailableSlots"⟩]
     | _ => [⟨"MalformedList", "AvailableSlots must be a numeric array",
              "workers", i, "AvailableSlots"⟩])
  else []

/-- The per-row checks of validateWorkers in button.tsx, in source
order: duplicate-ID check, the AvailableSlots parse check, and the
MaxLoadPerPhase numeric-parseability check. -/
def workerRowErrorsBtn (seen : List String) (i : Nat) (row : WRow) : List VError :=
  (if seen.contains row.WorkerID then
    [⟨"DuplicateID", "Duplicate WorkerID: " ++ row.WorkerID, "workers", i, "WorkerID"⟩]
   else []) ++
  slotsErrorsBtn i row.AvailableSlots ++
  (if truthy row.MaxLoadPerPhase && (toNum row.MaxLoadPerPhase).isNone then
    [⟨"MalformedValue", "MaxLoadPerPhase must be a number", "workers", i, "MaxLoadPerPhase"⟩]
   else [])

/-- validateWorkers of button.tsx. -/
def validateWorkersBtn (workers : List WRow) : List VError :=
  foldRows workerRowErrorsBtn (fun w => w.WorkerID) [] 0 workers

/-- The union of all Workers parsed Skills
(button.tsx: new Set(workers.flatMap(w => String(w.Skills or
empty).split and trim))). -/
def workerSkillsUnion (workers : List WRow) : List String :=
  workers.flatMap (fun w => splitTrim w.Skills)

/-- The SkillCoverage errors one task row contributes: one per trimmed
non-empty RequiredSkills entry absent from the union of worker skills
(button.tsx validateTasks, required.forEach). -/
def skillErrorsBtn (workerSkills : List String) (i : Nat) (entries : List String) : List VError :=
  entries.filterMap (fun sk =>
    if sk != "" && !workerSkills.contains sk then
      some ⟨"SkillCoverage", "RequiredSkill " ++ sk ++ " not found in any worker",
        "tasks", i, "RequiredSkills"⟩
    else none)

/-- The per-row checks of validateTasks in button.tsx, in source order:
duplicate-ID check, the truthiness-guarded DurationPhases < 1 check,
the RequiredSkills coverage check, the PreferredPhases grammar check,
and the MaxConcurrent numeric-parseability check. -/
def taskRowErrorsBtn (workerSkills seen : List String) (i : Nat) (row : TRow) : List VError :=
  (if seen.contains row.TaskID then
    [⟨"DuplicateID", "Duplicate TaskID: " ++ row.TaskID, "tasks", i, "TaskID"⟩] else []) ++
  (if truthy row.DurationPhases &&
      (match toNum row.DurationPhases with
       | some n => decide (n < 1)
       | none => false) then
    [⟨"OutOfRange", "DurationPhases must be >= 1", "tasks", i, "DurationPhases"⟩] else []) ++
  (if row.RequiredSkills != "" then
    skillErrorsBtn workerSkills i (splitTrim row.RequiredSkills) else []) ++
  (if row.PreferredPhases != "" &&
      !(bracketListRe row.PreferredPhases || dashRangeRe row.PreferredPhases) then
    [⟨"MalformedList", "PreferredPhases must be a list [1,2] or range 1-3",
      "tasks", i, "PreferredPhases"⟩] else []) ++
  (if truthy row.MaxConcurrent && (toNum row.MaxConcurrent).isNone then
    [⟨"MalformedValue", "MaxConcurrent must be a number", "tasks", i, "MaxConcurrent"⟩]
   else [])

/-- validateTasks of button.tsx: row checks over the task rows with the
skill union built from the workers argument. -/
def validateTasksBtn (tasks : List TRow) (workers : List WRow) : List VError :=
  foldRows (taskRowErrorsBtn (workerSkillsUnion workers)) (fun t => t.TaskID) [] 0 tasks

/-- The validation pipeline of button.tsx (the useMemo over the three
datasets): each present dataset is validated, a missing referenced
dataset is replaced by the empty list (tasks or [], workers or []),
and the three error lists are concatenated in dataset order. -/
def runValidations (clients : Option (List CRow)) (workers : Option (List WRow))
    (tasks : Option (List TRow)) : List VError :=
  (match clients with
   | some cs => validateClientsBtn cs (tasks.getD [])
   | none => []) ++
  (match workers with
   | some ws => validateWorkersBtn ws
   | none => []) ++
  (match tasks with
   | some ts => validateTasksBtn ts (workers.getD [])
   | none => [])

/-- The component state of button.tsx that the validation pass touches:
the three datasets (null before upload) and the error list. -/
structure AppState where
  clients : Option (List CRow)
  workers : Option (List WRow)
  tasks : Option (List TRow)
  validationErrors : List VError
deriving DecidableEq, Repr

/-- One run of the button.tsx validation pass: it only replaces
validationErrors and leaves every dataset untouched. -/
def revalidate (st : AppState) : AppState :=
  { st with validationErrors := runValidations st.clients st.workers st.tasks }

theorem filterNone {α : Type} (p : α → Bool) :
    ∀ l : List α, (∀ a ∈ l, p a = false) → l.filter p = [] := by
  intro l
  induction l with
  | nil => intro _; rfl
  | cons a t ih =>
    intro h
    have ha := h a (List.mem_cons_self a t)
    rw [List.filter_cons, if_neg (by simp [ha])]
    exact ih (fun b hb => h b (List.mem_cons_of_mem a hb))

theorem memIteSingle {α : Type} {P : Prop} [Decidable P] {x e : α}
    (h : e ∈ (if P then [x] else [])) : e = x := by
  split at h
  · simpa using h
  · simp at h

theorem refErrorsBtn_rowIndex (tids : List String) (i : Nat) (entries : List String) :
    ∀ e ∈ refErrorsBtn tids i entries, e.rowIndex = i := by
  intro e he
  rcases List.mem_filterMap.mp he with ⟨a, _, hfa⟩
  split at hfa
  · cases hfa; rfl
  · cases hfa

theorem skillErrorsBtn_rowIndex (skills : List String) (i : Nat) (entries : List String) :
    ∀ e ∈ skillErrorsBtn skills i entries, e.rowIndex = i := by
  intro e he
  rcases List.mem_filterMap.mp he with ⟨a, _, hfa⟩
  split at hfa
  · cases hfa; rfl
  · cases hfa

theorem clientRowErrorsU_row (seen : List String) (i : Nat) (c : ClientData) :
    ∀ e ∈ clientRowErrorsU seen i c, e.row = i + 1 := by
  intro e he
  unfold clientRowErrorsU at he
  simp only [List.mem_append] at he
  rcases he with ((h | h) | h) | h <;> (rw [memIteSingle h])

theorem clientRowErrorsPage_row (seen : List String) (i : Nat) (c : ClientData) :
    ∀ e ∈ clientRowErrorsPage seen i c, e.row = i + 1 := by
  intro e he
  unfold clientRowErrorsPage at he
  simp only [List.mem_append] at he
  rcases he with (h | h) | h <;> (rw [memIteSingle h])

theorem workerRowErrorsPage_row (seen : List String) (i : Nat) (w : WorkerData) :
    ∀ e ∈ workerRowErrorsPage seen i w, e.row = i + 1 := by
  intro e he
  unfold workerRowErrorsPage at he
  simp only [List.mem_append] at he
  rcases he with (h | h) | h <;> (rw [memIteSingle h])

theorem clientRowErrorsBtn_rowIndex (tids seen : List String) (i : Nat) (r : CRow) :
    ∀ e ∈ clientRowErrorsBtn tids seen i r, e.rowIndex = i := by
  intro e he
  unfold clientRowErrorsBtn at he
  simp only [List.mem_append] at he
  rcases he with ((h | h) | h) | h
  · rw [memIteSingle h]
  · rw [memIteSingle h]
  · split at h
    · exact refErrorsBtn_rowIndex _ _ _ e h
    · simp at h
  · rw [memIteSingle h]

theorem slotsErrorsBtn_fact (i : Nat) (v : JSValue) :
    ∀ e ∈ slotsErrorsBtn i v, e.rowIndex = i ∧ e.field = "AvailableSlots" := by
  intro e he
  unfold slotsErrorsBtn at he
  split at he
  · split at he
    · split at he
      · simp at he
      · simp at he
        rw [he]
        exact ⟨rfl, rfl⟩
    · simp at he
      rw [he]
      exact ⟨rfl, rfl⟩
  · simp at he

theorem workerRowErrorsBtn_rowIndex (seen : List String) (i : Nat) (r : WRow) :
    ∀ e ∈ workerRowErrorsBtn seen i r, e.rowIndex = i := by
  intro e he
  unfold workerRowErrorsBtn at he
  simp only [List.mem_append] at he
  rcases he with (h | h) | h
  · rw [memIteSingle h]
  · exact (slotsErrorsBtn_fact i r.AvailableSlots e h).1
  · rw [memIteSingle h]

theorem taskRowErrorsBtn_rowIndex (skills seen : List String) (i : Nat) (r : TRow) :
    ∀ e ∈ taskRowErrorsBtn skills seen i r, e.rowIndex = i := by
  intro e he
  unfold taskRowErrorsBtn at he
  simp only [List.mem_append] at he
  rcases he with (((h | h) | h) | h) | h
  · rw [memIteSingle h]
  · rw [memIteSingle h]
  · split at h
    · exact skillErrorsBtn_rowIndex _ _ _ e h
    · simp at h
  · rw [memIteSingle h]
  · rw [memIteSingle h]

theorem foldRows_row_ge {R E : Type} (f : List String → Nat → R → List E) (idOf : R → String)
    (rowOf : E → Nat) (c : Nat)
    (hrow : ∀ seen i r, ∀ e ∈ f seen i r, rowOf e = i + c) :
    ∀ (rows : List R) (seen : List String) (i : Nat),
      ∀ e ∈ foldRows f idOf seen i rows, i + c ≤ rowOf e := by
  intro rows
  induction rows with
  | nil => intro seen i e he; simp [foldRows] at he
  | cons r rest ih =>
    intro seen i e he
    simp only [foldRows, List.mem_append] at he
    rcases he with h | h
    · rw [hrow seen i r e h]
    · have := ih (seen ++ [idOf r]) (i + 1) e h
      omega

theorem foldRows_filter_row {R E : Type} (f : List String → Nat → R → List E) (idOf : R → String)
    (rowOf : E → Nat) (c : Nat)
    (hrow : ∀ seen i r, ∀ e ∈ f seen i r, rowOf e = i + c) :
    ∀ (rows : List R) (seen : List String) (i k : Nat) (hk : k < rows.length),
      (foldRows f idOf seen i rows).filter (fun e => rowOf e == i + k + c)
        = f (seen ++ (rows.take k).map idOf) (i + k) (rows.get ⟨k, hk⟩) := by
  intro rows
  induction rows with
  | nil => intro seen i k hk; simp at hk
  | cons r rest ih =>
    intro seen i k hk
    cases k with
    | zero =>
      simp only [foldRows, List.filter_append]
      have h1 : (f seen i r).filter (fun e => rowOf e == i + 0 + c) = f seen i r := by
        apply List.filter_eq_self.mpr
        intro e he
        have := hrow seen i r e he
        simp [this]
      have h2 : (foldRows f idOf (seen ++ [idOf r]) (i + 1) rest).filter
          (fun e => rowOf e == i + 0 + c) = [] := by
        apply filterNone
        intro e he
        have hge := foldRows_row_ge f idOf rowOf c hrow rest (seen ++ [idOf r]) (i + 1) e he
        simp only [beq_eq_false_iff_ne, ne_eq]
        omega
      rw [h1, h2, List.append_nil]
      simp
    | succ k =>
      simp only [foldRows, List.filter_append]
      have h1 : (f seen i r).filter (fun e => rowOf e == i + (k + 1) + c) = [] := by
        apply filterNone
        intro e he
        have := hrow seen i r e he
        simp only [beq_eq_false_iff_ne, ne_eq]
        omega
      have hk2 : k < rest.length := by simpa using Nat.lt_of_succ_lt_succ hk
      have h2 := ih (seen ++ [idOf r]) (i + 1) k hk2
      have harg : (fun e => rowOf e == i + (k + 1) + c) = (fun e => rowOf e == i + 1 + k + c) := by
        funext e
        have : i + (k + 1) + c = i + 1 + k + c := by omega
        rw [this]
      rw [h1, List.nil_append, harg, h2]
      have hget : (r :: rest).get ⟨k + 1, hk⟩ = rest.get ⟨k, hk2⟩ := rfl
      rw [hget]
      have htake : ((r :: rest).take (k + 1)).map idOf = idOf r :: (rest.take k).map idOf := rfl
      rw [htake]
      have hseen : seen ++ idOf r :: (rest.take k).map idOf
          = (seen ++ [idOf r]) ++ (rest.take k).map idOf := by
        simp
      rw [hseen]
      have hnum : i + (k + 1) = i + 1 + k := by omega
      rw [hnum]

theorem validateClientsU_filter_row (data : List ClientData) (k : Nat) (hk : k < data.length) :
    (validateClientsU data).filter (fun e => e.row == k + 1)
      = clientRowErrorsU ((data.take k).map (fun c => c.ClientID)) k (data.get ⟨k, hk⟩) := by
  have h := foldRows_filter_row clientRowErrorsU (fun c => c.ClientID) (fun e => e.row) 1
    clientRowErrorsU_row data [] 0 k hk
  simpa using h

theorem validateWorkersPage_filter_row (data : List WorkerData) (k : Nat) (hk : k < data.length) :
    (validateWorkersPage data).filter (fun e => e.row == k + 1)
      = workerRowErrorsPage ((data.take k).map (fun w => w.WorkerID)) k (data.get ⟨k, hk⟩) := by
  have h := foldRows_filter_row workerRowErrorsPage (fun w => w.WorkerID) (fun e => e.row) 1
    workerRowErrorsPage_row data [] 0 k hk
  simpa using h

theorem validateClientsBtn_filter_row (cs : List CRow) (ts : List TRow) (k : Nat)
    (hk : k < cs.length) :
    (validateClientsBtn cs ts).filter (fun e => e.rowIndex == k)
      = clientRowErrorsBtn (ts.map (fun t => t.TaskID)) ((cs.take k).map (fun c => c.ClientID)) k
          (cs.get ⟨k, hk⟩) := by
  have h := foldRows_filter_row (clientRowErrorsBtn (ts.map (fun t => t.TaskID)))
    (fun c => c.ClientID) (fun e => e.rowIndex) 0
    (fun seen i r e he => by
      simpa using clientRowErrorsBtn_rowIndex (ts.map (fun t => t.TaskID)) seen i r e he)
    cs [] 0 k hk
  simpa using h

theorem validateWorkersBtn_filter_row (ws : List WRow) (k : Nat) (hk : k < ws.length) :
    (validateWorkersBtn ws).filter (fun e => e.rowIndex == k)
      = workerRowErrorsBtn ((ws.take k).map (fun w => w.WorkerID)) k (ws.get ⟨k, hk⟩) := by
  have h := foldRows_filter_row workerRowErrorsBtn (fun w => w.WorkerID) (fun e => e.rowIndex) 0
    (fun seen i r e he => by simpa using workerRowErrorsBtn_rowIndex seen i r e he)
    ws [] 0 k hk
  simpa using h

theorem validateTasksBtn_filter_row (ts : List TRow) (ws : List WRow) (k : Nat)
    (hk : k < ts.length) :
    (validateTasksBtn ts ws).filter (fun e => e.rowIndex == k)
      = taskRowErrorsBtn (workerSkillsUnion ws) ((ts.take k).map (fun t => t.TaskID)) k
          (ts.get ⟨k, hk⟩) := by
  have h := foldRows_filter_row (taskRowErrorsBtn (workerSkillsUnion ws)) (fun t => t.TaskID)
    (fun e => e.rowIndex) 0
    (fun seen i r e he => by simpa using taskRowErrorsBtn_rowIndex (workerSkillsUnion ws) seen i r e he)
    ts [] 0 k hk
  simpa using h

theorem filterIteSingleNone {α : Type} (p : α → Bool) {P : Prop} [Decidable P] {x : α}
    (hx : p x = false) : (if P then [x] else []).filter p = [] := by
  split
  · simp [List.filter, hx]
  · rfl

theorem filterIteSingleAll {α : Type} (p : α → Bool) {P : Prop} [Decidable P] {x : α}
    (hx : p x = true) : (if P then [x] else []).filter p = (if P then [x] else []) := by
  split
  · simp [List.filter, hx]
  · rfl

theorem refErrorsBtn_type (tids : List String) (i : Nat) (entries : List String) :
    ∀ e ∈ refErrorsBtn tids i entries, e.type = "UnknownReference" := by
  intro e he
  rcases List.mem_filterMap.mp he with ⟨a, _, hfa⟩
  split at hfa
  · cases hfa; rfl
  · cases hfa

theorem skillErrorsBtn_type (skills : List String) (i : Nat) (entries : List String) :
    ∀ e ∈ skillErrorsBtn skills i entries, e.type = "SkillCoverage" := by
  intro e he
  rcases List.mem_filterMap.mp he with ⟨a, _, hfa⟩
  split at hfa
  · cases hfa; rfl
  · cases hfa

theorem refErrorsBtn_eq_map (tids : List String) (i : Nat) :
    ∀ entries : List String,
      refErrorsBtn tids i entries
        = (entries.filter (fun s => s != "" && !tids.contains s)).map
            (fun tid => ⟨"UnknownReference", "RequestedTaskID " ++ tid ++ " not found in tasks",
              "clients", i, "RequestedTaskIDs"⟩) := by
  intro entries
  induction entries with
  | nil => rfl
  | cons a t ih =>
    by_cases h : (a != "" && !tids.contains a) = true
    · show refErrorsBtn tids i (a :: t) = _
      simp only [refErrorsBtn, List.filterMap_cons, h, if_true, List.filter_cons]
      show _ :: refErrorsBtn tids i t = _
      rw [ih, List.map_cons]
    · have h2 : (a != "" && !tids.contains a) = false := by
        revert h
        cases (a != "" && !tids.contains a) <;> simp
      show refErrorsBtn tids i (a :: t) = _
      simp only [refErrorsBtn, List.filterMap_cons, h2, List.filter_cons]
      show refErrorsBtn tids i t = _
      rw [ih]
      simp

theorem skillErrorsBtn_eq_map (skills : List String) (i : Nat) :
    ∀ entries : List String,
      skillErrorsBtn skills i entries
        = (entries.filter (fun s => s != "" && !skills.contains s)).map
            (fun sk => ⟨"SkillCoverage", "RequiredSkill " ++ sk ++ " not found in any worker",
              "tasks", i, "RequiredSkills"⟩) := by
  intro entries
  induction entries with
  | nil => rfl
  | cons a t ih =>
    by_cases h : (a != "" && !skills.contains a) = true
    · show skillErrorsBtn skills i (a :: t) = _
      simp only [skillErrorsBtn, List.filterMap_cons, h, if_true, List.filter_cons]
      show _ :: skillErrorsBtn skills i t = _
      rw [ih, List.map_cons]
    · have h2 : (a != "" && !skills.contains a) = false := by
        revert h
        cases (a != "" && !skills.contains a) <;> simp
      show skillErrorsBtn skills i (a :: t) = _
      simp only [skillErrorsBtn, List.filterMap_cons, h2, List.filter_cons]
      show skillErrorsBtn skills i t = _
      rw [ih]
      simp

theorem clientRowErrorsU_filter_priority (seen : List String) (k : Nat) (c : ClientData) :
    (clientRowErrorsU seen k c).filter (fun e => e.column == "PriorityLevel")
      = (if jsLt c.PriorityLevel 1 || jsGt c.PriorityLevel 5 then
          [⟨"out_of_range", "PriorityLevel must be 1-5, got: " ++ jsToString c.PriorityLevel,
            k + 1, "PriorityLevel"⟩] else []) := by
  unfold clientRowErrorsU
  rw [List.filter_append, List.filter_append, List.filter_append]
  rw [filterIteSingleNone _ (by rfl), filterIteSingleAll _ (by rfl),
    filterIteSingleNone _ (by rfl), filterIteSingleNone _ (by rfl)]
  simp

theorem clientRowErrorsU_filter_json (seen : List String) (k : Nat) (c : ClientData) :
    (clientRowErrorsU seen k c).filter (fun e => e.column == "AttributesJSON")
      = (if c.AttributesJSON != "" && !isValidJSON c.AttributesJSON then
          [⟨"invalid_json", "Invalid JSON in AttributesJSON", k + 1, "AttributesJSON"⟩]
         else []) := by
  unfold clientRowErrorsU
  rw [List.filter_append, List.filter_append, List.filter_append]
  rw [filterIteSingleNone _ (by rfl), filterIteSingleNone _ (by rfl),
    filterIteSingleNone _ (by rfl), filterIteSingleAll _ (by rfl)]
  simp

theorem workerRowErrorsPage_filter_maxload (seen : List String) (k : Nat) (w : WorkerData) :
    (workerRowErrorsPage seen k w).filter (fun e => e.column == "MaxLoadPerPhase")
      = (if jsLt w.MaxLoadPerPhase 1 then
          [⟨"out_of_range", "MaxLoadPerPhase must be >= 1", k + 1, "MaxLoadPerPhase"⟩]
         else []) := by
  unfold workerRowErrorsPage
  rw [List.filter_append, List.filter_append]
  rw [filterIteSingleNone _ (by rfl), filterIteSingleNone _ (by rfl),
    filterIteSingleAll _ (by rfl)]
  simp

theorem clientRowErrorsBtn_filter_dup (tids seen : List String) (k : Nat) (r : CRow) :
    (clientRowErrorsBtn tids seen k r).filter (fun e => e.type == "DuplicateID")
      = (if seen.contains r.ClientID then
          [⟨"DuplicateID", "Duplicate ClientID: " ++ r.ClientID, "clients", k, "ClientID"⟩]
         else []) := by
  unfold clientRowErrorsBtn
  rw [List.filter_append, List.filter_append, List.filter_append]
  rw [filterIteSingleAll _ (by rfl), filterIteSingleNone _ (by rfl),
    filterIteSingleNone _ (by rfl)]
  have href : (if r.RequestedTaskIDs != "" then
      refErrorsBtn tids k (splitTrim r.RequestedTaskIDs) else []).filter
        (fun e => e.type == "DuplicateID") = [] := by
    split
    · apply filterNone
      intro e he
      have ht := refErrorsBtn_type tids k _ e he
      simp [ht]
    · rfl
  rw [href]
  simp

theorem clientRowErrorsBtn_filter_ur (tids seen : List String) (k : Nat) (r : CRow) :
    (clientRowErrorsBtn tids seen k r).filter (fun e => e.type == "UnknownReference")
      = refErrorsBtn tids k (splitTrim r.RequestedTaskIDs) := by
  unfold clientRowErrorsBtn
  rw [List.filter_append, List.filter_append, List.filter_append]
  rw [filterIteSingleNone _ (by rfl), filterIteSingleNone _ (by rfl),
    filterIteSingleNone _ (by rfl)]
  have href : (if r.RequestedTaskIDs != "" then
      refErrorsBtn tids k (splitTrim r.RequestedTaskIDs) else []).filter
        (fun e => e.type == "UnknownReference")
      = refErrorsBtn tids k (splitTrim r.RequestedTaskIDs) := by
    split
    · apply List.filter_eq_self.mpr
      intro e he
      have ht := refErrorsBtn_type tids k _ e he
      simp [ht]
    · have hempty : r.RequestedTaskIDs = "" := by
        rename_i hg
        revert hg
        cases hrt : (r.RequestedTaskIDs != "")
        · intro _
          simpa using hrt
        · intro hg
          exact absurd rfl hg
      rw [hempty]
      rfl
  rw [href]
  simp

theorem taskRowErrorsBtn_filter_skill (skills seen : List String) (k : Nat) (r : TRow) :
    (taskRowErrorsBtn skills seen k r).filter (fun e => e.type == "SkillCoverage")
      = skillErrorsBtn skills k (splitTrim r.RequiredSkills) := by
  unfold taskRowErrorsBtn
  rw [List.filter_append, List.filter_append, List.filter_append, List.filter_append]
  rw [filterIteSingleNone _ (by rfl), filterIteSingleNone _ (by rfl),
    filterIteSingleNone _ (by rfl), filterIteSingleNone _ (by rfl)]
  have hsk : (if r.RequiredSkills != "" then
      skillErrorsBtn skills k (splitTrim r.RequiredSkills) else []).filter
        (fun e => e.type == "SkillCoverage")
      = skillErrorsBtn skills k (splitTrim r.RequiredSkills) := by
    split
    · apply List.filter_eq_self.mpr
      intro e he
      have ht := skillErrorsBtn_type skills k _ e he
      simp [ht]
    · have hempty : r.RequiredSkills = "" := by
        rename_i hg
        revert hg
        cases hrt : (r.RequiredSkills != "")
        · intro _
          simpa using hrt
        · intro hg
          exact absurd rfl hg
      rw [hempty]
      rfl
  rw [hsk]
  simp

theorem workerRowErrorsBtn_filter_maxload (seen : List String) (k : Nat) (r : WRow) :
    (workerRowErrorsBtn seen k r).filter (fun e => e.field == "MaxLoadPerPhase")
      = (if truthy r.MaxLoadPerPhase && (toNum r.MaxLoadPerPhase).isNone then
          [⟨"MalformedValue", "MaxLoadPerPhase must be a number", "workers", k,
            "MaxLoadPerPhase"⟩] else []) := by
  unfold workerRowErrorsBtn
  rw [List.filter_append, List.filter_append]
  rw [filterIteSingleNone _ (by rfl), filterIteSingleAll _ (by rfl)]
  rw [filterNone _ (slotsErrorsBtn k r.AvailableSlots)
    (fun e he => by
      have hf := (slotsErrorsBtn_fact k r.AvailableSlots e he).2
      simp [hf])]
  simp

theorem runValidations_clients_only (cs : List CRow) :
    runValidations (some cs) none none = validateClientsBtn cs [] := by
  simp [runValidations]

/-- C10: rows whose identifier is the empty string still participate in
duplicate detection: for two client rows with ClientID the empty
string, validateClients of src/utils/validation.ts flags the second row
as a duplicate and flags both rows as missing required fields (the
duplicate error carries the 1-based row number 2, i.e. the row at
0-based index 1). -/
theorem c10_empty_id_duplicates :
    validateClientsU
        [⟨"", "", JSValue.absent, "", "", ""⟩, ⟨"", "", JSValue.absent, "", "", ""⟩]
      = [⟨"missing_required", "Missing required ClientID or ClientName", 1,
          "ClientID/ClientName"⟩,
         ⟨"duplicate_id", "Duplicate ClientID: ", 2, "ClientID"⟩,
         ⟨"missing_required", "Missing required ClientID or ClientName", 2,
          "ClientID/ClientName"⟩] := by
  decide

/-- C2: the page.tsx re-validation step is not idempotent.  The filter
prev.filter(e => e.type.indexOf(tag) === -1) keyed on the dataset tag
matches no emitted error type (the type field holds kind strings such
as out_of_range), so running the client validator a second time over
the same rows appends a second copy of every error instead of replacing
the first run's errors. -/
theorem c2_revalidation_accumulates :
    containsSub "out_of_range" "client" = false
    ∧ applyClientRun [] [⟨"C1", "Alice", JSValue.vnum 6, "", "", ""⟩]
        = [⟨"out_of_range", "PriorityLevel must be 1-5, got: 6", 1, "PriorityLevel"⟩]
    ∧ applyClientRun (applyClientRun [] [⟨"C1", "Alice", JSValue.vnum 6, "", "", ""⟩])
          [⟨"C1", "Alice", JSValue.vnum 6, "", "", ""⟩]
        = [⟨"out_of_range", "PriorityLevel must be 1-5, got: 6", 1, "PriorityLevel"⟩,
           ⟨"out_of_range", "PriorityLevel must be 1-5, got: 6", 1, "PriorityLevel"⟩] := by
  exact ⟨by decide, by decide, by decide⟩

/-- C7 counterexample: in validateClients of src/utils/validation.ts a
row with an out-of-range PriorityLevel and a missing ClientName emits
the structured-field error before the required-field error, so the
claimed order (duplicate-ID, then required-field, then structured
checks) does not hold. -/
theorem c7_order_counterexample :
    (validateClientsU [⟨"C1", "", JSValue.vnum 6, "", "", ""⟩]).map (fun e => e.type)
      = ["out_of_range", "missing_required"] := by
  decide

/-- C7 amended: the errors of a client row are emitted in the source
order of clientRowErrorsU, namely duplicate-ID check, then PriorityLevel
range check, then required-field check, then AttributesJSON check: the
slice of the report belonging to row k equals that per-row list
(the structured PriorityLevel check precedes the required-field
check). -/
theorem c7_order_amended :
    ∀ (data : List ClientData) (k : Nat) (hk : k < data.length),
      (validateClientsU data).filter (fun e => e.row == k + 1)
        = clientRowErrorsU ((data.take k).map (fun c => c.ClientID)) k (data.get ⟨k, hk⟩) :=
  fun data k hk => validateClientsU_filter_row data k hk

/-- Witness for C7 amended at a concrete one-row dataset. -/
theorem c7_order_amended_witness :
    0 < ([⟨"C1", "", JSValue.vnum 6, "", "", ""⟩] : List ClientData).length
    ∧ (validateClientsU [⟨"C1", "", JSValue.vnum 6, "", "", ""⟩]).filter
        (fun e => e.row == 0 + 1)
      = clientRowErrorsU [] 0 ⟨"C1", "", JSValue.vnum 6, "", "", ""⟩ := by
  constructor
  · decide
  · have h := c7_order_amended [⟨"C1", "", JSValue.vnum 6, "", "", ""⟩] 0 (by decide)
    simpa using h

/-- C4 counterexample: the inline validateWorkers of src/app/page.tsx
does apply a floor-of-1 range check: a worker row whose
MaxLoadPerPhase is the number 0 (numeric, parseable) receives an
out_of_range error solely because 0 < 1. -/
theorem c4_floor_check_counterexample :
    validateWorkersPage [⟨"W1", "Bob", "", JSValue.absent, JSValue.vnum 0, "", JSValue.absent⟩]
      = [⟨"out_of_range", "MaxLoadPerPhase must be >= 1", 1, "MaxLoadPerPhase"⟩] := by
  decide

/-- C3 counterexample: with no Task dataset supplied, the button.tsx
pipeline passes the empty task list to validateClients, so a client
whose RequestedTaskIDs is T9 receives one UnknownReference error
instead of the zero the claim promises. -/
theorem c3_no_tasks_counterexample :
    runValidations (some [⟨"C1", JSValue.absent, "T9", ""⟩]) none none
      = [⟨"UnknownReference", "RequestedTaskID T9 not found in tasks", "clients", 0,
          "RequestedTaskIDs"⟩] := by
  decide

/-- C1: duplicate detection in validateClients of button.tsx.  For any
two-row client dataset with equal ClientID values exactly one
DuplicateID error is emitted and it is attached to the row at index 1;
in general the number of DuplicateID errors attached to row k is one
exactly when the identifier already occurs in an earlier row (the first
occurrence is never flagged); and a validation pass replaces only the
error list, never removing any row from any dataset. -/
theorem c1_duplicate_detection :
    (∀ (r1 r2 : CRow) (ts : List TRow), r1.ClientID = r2.ClientID →
      (validateClientsBtn [r1, r2] ts).filter (fun e => e.type == "DuplicateID")
        = [⟨"DuplicateID", "Duplicate ClientID: " ++ r2.ClientID, "clients", 1, "ClientID"⟩])
    ∧ (∀ (cs : List CRow) (ts : List TRow) (k : Nat) (hk : k < cs.length),
        ((validateClientsBtn cs ts).filter (fun e => e.rowIndex == k)).filter
            (fun e => e.type == "DuplicateID")
          = (if ((cs.take k).map (fun c => c.ClientID)).contains ((cs.get ⟨k, hk⟩).ClientID) then
              [⟨"DuplicateID", "Duplicate ClientID: " ++ (cs.get ⟨k, hk⟩).ClientID,
                "clients", k, "ClientID"⟩] else []))
    ∧ (∀ st : AppState, (revalidate st).clients = st.clients
        ∧ (revalidate st).workers = st.workers ∧ (revalidate st).tasks = st.tasks) := by
  refine ⟨?_, ?_, ?_⟩
  · intro r1 r2 ts h12
    have hunfold : validateClientsBtn [r1, r2] ts
        = clientRowErrorsBtn (ts.map (fun t => t.TaskID)) [] 0 r1
          ++ (clientRowErrorsBtn (ts.map (fun t => t.TaskID)) ([] ++ [r1.ClientID]) 1 r2
              ++ []) := rfl
    rw [hunfold, List.filter_append, List.filter_append]
    rw [clientRowErrorsBtn_filter_dup, clientRowErrorsBtn_filter_dup]
    simp [h12]
  · intro cs ts k hk
    rw [validateClientsBtn_filter_row cs ts k hk, clientRowErrorsBtn_filter_dup]
  · intro st
    exact ⟨rfl, rfl, rfl⟩

/-- Witness for C1 at two concrete client rows sharing ClientID C1. -/
theorem c1_duplicate_detection_witness :
    (⟨"C1", JSValue.absent, "", ""⟩ : CRow).ClientID
      = (⟨"C1", JSValue.absent, "", ""⟩ : CRow).ClientID
    ∧ (validateClientsBtn
        [⟨"C1", JSValue.absent, "", ""⟩, ⟨"C1", JSValue.absent, "", ""⟩] []).filter
          (fun e => e.type == "DuplicateID")
      = [⟨"DuplicateID", "Duplicate ClientID: " ++ "C1", "clients", 1, "ClientID"⟩] :=
  ⟨rfl, c1_duplicate_detection.1 ⟨"C1", JSValue.absent, "", ""⟩ ⟨"C1", JSValue.absent, "", ""⟩
    [] rfl⟩

/-- C3 amended: with no Task dataset supplied the button.tsx pipeline
validates clients against the empty task list (no suppression), so
every trimmed non-empty RequestedTaskIDs entry yields one
UnknownReference error; in general the UnknownReference errors attached
to client row k are exactly one per trimmed non-empty entry that does
not match any TaskID of the supplied task list. -/
theorem c3_unknown_reference_amended :
    (∀ cs : List CRow, runValidations (some cs) none none = validateClientsBtn cs [])
    ∧ (∀ (cs : List CRow) (ts : List TRow) (k : Nat) (hk : k < cs.length),
        ((validateClientsBtn cs ts).filter (fun e => e.rowIndex == k)).filter
            (fun e => e.type == "UnknownReference")
          = ((splitTrim ((cs.get ⟨k, hk⟩).RequestedTaskIDs)).filter
              (fun s => s != "" && !(ts.map (fun t => t.TaskID)).contains s)).map
              (fun tid => ⟨"UnknownReference",
                "RequestedTaskID " ++ tid ++ " not found in tasks",
                "clients", k, "RequestedTaskIDs"⟩)) := by
  constructor
  · exact runValidations_clients_only
  · intro cs ts k hk
    rw [validateClientsBtn_filter_row cs ts k hk, clientRowErrorsBtn_filter_ur,
      refErrorsBtn_eq_map]

/-- Witness for C3 amended: one client requesting T9 against the empty
task list yields exactly the one UnknownReference error. -/
theorem c3_unknown_reference_amended_witness :
    0 < ([⟨"C1", JSValue.absent, "T9", ""⟩] : List CRow).length
    ∧ ((validateClientsBtn [⟨"C1", JSValue.absent, "T9", ""⟩] []).filter
        (fun e => e.rowIndex == 0)).filter (fun e => e.type == "UnknownReference")
      = [⟨"UnknownReference", "RequestedTaskID T9 not found in tasks", "clients", 0,
          "RequestedTaskIDs"⟩] := by
  constructor
  · decide
  · have h := c3_unknown_reference_amended.2 [⟨"C1", JSValue.absent, "T9", ""⟩] [] 0 (by decide)
    rw [h]
    decide

/-- C4 amended: the button.tsx worker validator checks MaxLoadPerPhase
only for numeric parseability, so a row whose MaxLoadPerPhase converts
to a number (in particular any value below 1) receives no
MaxLoadPerPhase error there; the inline validateWorkers of
src/app/page.tsx, by contrast, emits an out_of_range error whenever
MaxLoadPerPhase compares less than 1. -/
theorem c4_maxload_amended :
    (∀ (ws : List WRow) (k : Nat) (hk : k < ws.length) (n : Int),
      toNum ((ws.get ⟨k, hk⟩).MaxLoadPerPhase) = some n →
      ((validateWorkersBtn ws).filter (fun e => e.rowIndex == k)).filter
          (fun e => e.field == "MaxLoadPerPhase") = [])
    ∧ (∀ (ws : List WorkerData) (k : Nat) (hk : k < ws.length),
      jsLt ((ws.get ⟨k, hk⟩).MaxLoadPerPhase) 1 = true →
      ((validateWorkersPage ws).filter (fun e => e.row == k + 1)).filter
          (fun e => e.column == "MaxLoadPerPhase")
        = [⟨"out_of_range", "MaxLoadPerPhase must be >= 1", k + 1, "MaxLoadPerPhase"⟩]) := by
  constructor
  · intro ws k hk n hn
    rw [validateWorkersBtn_filter_row ws k hk, workerRowErrorsBtn_filter_maxload]
    have hn2 : (toNum ((ws.get ⟨k, hk⟩).MaxLoadPerPhase)).isNone = false := by
      rw [hn]
      rfl
    have hcond : ¬((truthy ((ws.get ⟨k, hk⟩).MaxLoadPerPhase)
        && (toNum ((ws.get ⟨k, hk⟩).MaxLoadPerPhase)).isNone) = true) := by
      rw [hn2]
      simp
    rw [if_neg hcond]
  · intro ws k hk hlt
    rw [validateWorkersPage_filter_row ws k hk, workerRowErrorsPage_filter_maxload, if_pos hlt]

/-- Witness for C4 amended: MaxLoadPerPhase 0 is numeric, gets no error
from the button.tsx worker validator, and gets the out_of_range error
from the page.tsx one. -/
theorem c4_maxload_amended_witness :
    toNum ((⟨"W1", "", JSValue.absent, JSValue.vnum 0⟩ : WRow).MaxLoadPerPhase) = some 0
    ∧ ((validateWorkersBtn [⟨"W1", "", JSValue.absent, JSValue.vnum 0⟩]).filter
        (fun e => e.rowIndex == 0)).filter (fun e => e.field == "MaxLoadPerPhase") = []
    ∧ jsLt ((⟨"W1", "Bob", "", JSValue.absent, JSValue.vnum 0, "",
        JSValue.absent⟩ : WorkerData).MaxLoadPerPhase) 1 = true
    ∧ ((validateWorkersPage [⟨"W1", "Bob", "", JSValue.absent, JSValue.vnum 0, "",
          JSValue.absent⟩]).filter (fun e => e.row == 0 + 1)).filter
        (fun e => e.column == "MaxLoadPerPhase")
      = [⟨"out_of_range", "MaxLoadPerPhase must be >= 1", 0 + 1, "MaxLoadPerPhase"⟩] := by
  refine ⟨rfl, ?_, rfl, ?_⟩
  · exact c4_maxload_amended.1 [⟨"W1", "", JSValue.absent, JSValue.vnum 0⟩] 0 (by decide) 0 rfl
  · exact c4_maxload_amended.2
      [⟨"W1", "Bob", "", JSValue.absent, JSValue.vnum 0, "", JSValue.absent⟩] 0 (by decide) rfl

/-- C6: skill coverage.  The concrete pair of datasets from the claim
yields exactly one SkillCoverage error for electrical on the first task
row; in general, when the worker dataset is present and non-empty, the
SkillCoverage errors attached to task row k are exactly one per trimmed
non-empty RequiredSkills entry absent from the union of all worker
skills. -/
theorem c6_skill_coverage :
    validateTasksBtn [⟨"T1", JSValue.absent, "plumbing,electrical", "", JSValue.absent⟩]
        [⟨"W1", "plumbing", JSValue.absent, JSValue.absent⟩]
      = [⟨"SkillCoverage", "RequiredSkill electrical not found in any worker", "tasks", 0,
          "RequiredSkills"⟩]
    ∧ (∀ (ts : List TRow) (ws : List WRow) (k : Nat) (hk : k < ts.length), ws ≠ [] →
        ((validateTasksBtn ts ws).filter (fun e => e.rowIndex == k)).filter
            (fun e => e.type == "SkillCoverage")
          = ((splitTrim ((ts.get ⟨k, hk⟩).RequiredSkills)).filter
              (fun s => s != "" && !(workerSkillsUnion ws).contains s)).map
              (fun sk => ⟨"SkillCoverage",
                "RequiredSkill " ++ sk ++ " not found in any worker",
                "tasks", k, "RequiredSkills"⟩)) := by
  constructor
  · decide
  · intro ts ws k hk _
    rw [validateTasksBtn_filter_row ts ws k hk, taskRowErrorsBtn_filter_skill,
      skillErrorsBtn_eq_map]

/-- Witness for C6 at the datasets of the claim. -/
theorem c6_skill_coverage_witness :
    ([⟨"W1", "plumbing", JSValue.absent, JSValue.absent⟩] : List WRow) ≠ []
    ∧ ((validateTasksBtn [⟨"T1", JSValue.absent, "plumbing,electrical", "", JSValue.absent⟩]
          [⟨"W1", "plumbing", JSValue.absent, JSValue.absent⟩]).filter
        (fun e => e.rowIndex == 0)).filter (fun e => e.type == "SkillCoverage")
      = [⟨"SkillCoverage", "RequiredSkill electrical not found in any worker", "tasks", 0,
          "RequiredSkills"⟩] := by
  constructor
  · decide
  · have h := c6_skill_coverage.2
      [⟨"T1", JSValue.absent, "plumbing,electrical", "", JSValue.absent⟩]
      [⟨"W1", "plumbing", JSValue.absent, JSValue.absent⟩] 0 (by decide) (by decide)
    rw [h]
    decide

/-- C5: for a client row whose PriorityLevel is the number p,
validateClients of src/utils/validation.ts attaches to that row exactly
one out_of_range error on column PriorityLevel when p is outside 1..5
and none otherwise (in particular none for p = 1 and p = 5). -/
theorem c5_priority_range :
    ∀ (data : List ClientData) (k : Nat) (hk : k < data.length) (p : Int),
      (data.get ⟨k, hk⟩).PriorityLevel = JSValue.vnum p →
      ((validateClientsU data).filter (fun e => e.row == k + 1)).filter
          (fun e => e.column == "PriorityLevel")
        = (if p < 1 ∨ 5 < p then
            [⟨"out_of_range", "PriorityLevel must be 1-5, got: " ++ intToStr p,
              k + 1, "PriorityLevel"⟩] else []) := by
  intro data k hk p hp
  rw [validateClientsU_filter_row data k hk, clientRowErrorsU_filter_priority, hp]
  have hiff : (jsLt (JSValue.vnum p) 1 || jsGt (JSValue.vnum p) 5) = true ↔ (p < 1 ∨ 5 < p) := by
    simp [jsLt, jsGt, toNum]
  by_cases hc : p < 1 ∨ 5 < p
  · rw [if_pos (hiff.mpr hc), if_pos hc]
    rfl
  · rw [if_neg (fun hh => hc (hiff.mp hh)), if_neg hc]

/-- Witness for C5 at PriorityLevel 6. -/
theorem c5_priority_range_witness :
    0 < ([⟨"C1", "Alice", JSValue.vnum 6, "", "", ""⟩] : List ClientData).length
    ∧ ((validateClientsU [⟨"C1", "Alice", JSValue.vnum 6, "", "", ""⟩]).filter
        (fun e => e.row == 0 + 1)).filter (fun e => e.column == "PriorityLevel")
      = [⟨"out_of_range", "PriorityLevel must be 1-5, got: 6", 1, "PriorityLevel"⟩] := by
  constructor
  · decide
  · have h := c5_priority_range [⟨"C1", "Alice", JSValue.vnum 6, "", "", ""⟩] 0 (by decide) 6 rfl
    rw [h]
    decide

/-- C9: when a client row's PriorityLevel does not convert to a number
(it is absent or a non-numeric string), both range comparisons are
false, and validateClients of src/utils/validation.ts attaches no error
at all to the PriorityLevel field of that row. -/
theorem c9_nonnumeric_priority_silent :
    ∀ (data : List ClientData) (k : Nat) (hk : k < data.length),
      toNum ((data.get ⟨k, hk⟩).PriorityLevel) = none →
      jsLt ((data.get ⟨k, hk⟩).PriorityLevel) 1 = false
      ∧ jsGt ((data.get ⟨k, hk⟩).PriorityLevel) 5 = false
      ∧ ((validateClientsU data).filter (fun e => e.row == k + 1)).filter
          (fun e => e.column == "PriorityLevel") = [] := by
  intro data k hk hn
  have h1 : jsLt ((data.get ⟨k, hk⟩).PriorityLevel) 1 = false := by
    unfold jsLt
    rw [hn]
  have h2 : jsGt ((data.get ⟨k, hk⟩).PriorityLevel) 5 = false := by
    unfold jsGt
    rw [hn]
  refine ⟨h1, h2, ?_⟩
  rw [validateClientsU_filter_row data k hk, clientRowErrorsU_filter_priority]
  rw [if_neg (by rw [h1, h2]; simp)]

/-- Witness for C9 at an absent PriorityLevel. -/
theorem c9_nonnumeric_priority_silent_witness :
    0 < ([⟨"C1", "Alice", JSValue.absent, "", "", ""⟩] : List ClientData).length
    ∧ toNum ((([⟨"C1", "Alice", JSValue.absent, "", "", ""⟩] : List ClientData).get
        ⟨0, by decide⟩).PriorityLevel) = none
    ∧ ((validateClientsU [⟨"C1", "Alice", JSValue.absent, "", "", ""⟩]).filter
        (fun e => e.row == 0 + 1)).filter (fun e => e.column == "PriorityLevel") = [] := by
  refine ⟨by decide, rfl, ?_⟩
  exact (c9_nonnumeric_priority_silent [⟨"C1", "Alice", JSValue.absent, "", "", ""⟩] 0
    (by decide) rfl).2.2

/-- C8: the AttributesJSON check of validateClients in
src/utils/validation.ts: an empty (or absent) value yields no error on
that field, a non-empty value accepted by JSON.parse yields none, and a
non-empty value rejected by JSON.parse yields exactly the one
invalid_json error on that row (invalid_json is the BrokenJSON kind of
the error taxonomy). -/
theorem c8_attributes_json :
    ∀ (data : List ClientData) (k : Nat) (hk : k < data.length),
      ((data.get ⟨k, hk⟩).AttributesJSON = "" →
        ((validateClientsU data).filter (fun e => e.row == k + 1)).filter
          (fun e => e.column == "AttributesJSON") = [])
      ∧ ((data.get ⟨k, hk⟩).AttributesJSON ≠ "" →
          isValidJSON ((data.get ⟨k, hk⟩).AttributesJSON) = true →
        ((validateClientsU data).filter (fun e => e.row == k + 1)).filter
          (fun e => e.column == "AttributesJSON") = [])
      ∧ ((data.get ⟨k, hk⟩).AttributesJSON ≠ "" →
          isValidJSON ((data.get ⟨k, hk⟩).AttributesJSON) = false →
        ((validateClientsU data).filter (fun e => e.row == k + 1)).filter
          (fun e => e.column == "AttributesJSON")
          = [⟨"invalid_json", "Invalid JSON in AttributesJSON", k + 1, "AttributesJSON"⟩]) := by
  intro data k hk
  have hmain : ((validateClientsU data).filter (fun e => e.row == k + 1)).filter
      (fun e => e.column == "AttributesJSON")
      = (if (data.get ⟨k, hk⟩).AttributesJSON != ""
            && !isValidJSON ((data.get ⟨k, hk⟩).AttributesJSON) then
          [⟨"invalid_json", "Invalid JSON in AttributesJSON", k + 1, "AttributesJSON"⟩]
         else []) := by
    rw [validateClientsU_filter_row data k hk, clientRowErrorsU_filter_json]
  refine ⟨?_, ?_, ?_⟩
  · intro h0
    rw [hmain, if_neg (by rw [h0]; simp)]
  · intro _ hval
    rw [hmain, if_neg (by rw [hval]; simp)]
  · intro hne hinv
    have hbne : ((data.get ⟨k, hk⟩).AttributesJSON != "") = true := by
      simpa using hne
    rw [hmain, if_pos (by rw [hbne, hinv]; rfl)]

/-- Witness for C8: a syntactically valid and a syntactically broken
AttributesJSON value, evaluated concretely. -/
theorem c8_attributes_json_witness :
    isValidJSON "\x7b\"a\":1\x7d" = true
    ∧ isValidJSON "\x7ba:1\x7d" = false
    ∧ ((validateClientsU [⟨"C1", "Alice", JSValue.vnum 3, "", "", "\x7b\"a\":1\x7d"⟩]).filter
        (fun e => e.row == 0 + 1)).filter (fun e => e.column == "AttributesJSON") = []
    ∧ ((validateClientsU [⟨"C1", "Alice", JSValue.vnum 3, "", "", "\x7ba:1\x7d"⟩]).filter
        (fun e => e.row == 0 + 1)).filter (fun e => e.column == "AttributesJSON")
      = [⟨"invalid_json", "Invalid JSON in AttributesJSON", 1, "AttributesJSON"⟩] := by
  refine ⟨by decide, by decide, ?_, ?_⟩
  · exact (c8_attributes_json [⟨"C1", "Alice", JSValue.vnum 3, "", "", "\x7b\"a\":1\x7d"⟩] 0
      (by decide)).2.1 (by decide) (by decide)
  · exact (c8_attributes_json [⟨"C1", "Alice", JSValue.vnum 3, "", "", "\x7ba:1\x7d"⟩] 0
      (by decide)).2.2 (by decide) (by decide)
